import Mathlib

/-!
Verification of the traffic-density analysis core of
`smart-traffic-monitor` (`src/app.py`).

The analyzable logic is the single function `analyze_traffic`:
it runs the detector once, tallies detections whose COCO class id is one
of {2, 3, 5, 7} into a four-key `vehicle_counts` dict, sums the counts,
and maps the total through a cascading threshold conditional to a
density tier, display color and green-light duration.

Embedding choices:
* a detection is represented by its integer class id (`int(box.cls[0])`
  in the source); confidence and bounding box are unused by the core;
* the detector's output (`results`, each with `.boxes`) is a list of
  lists of class ids; a flattened form `tally` over a single list of
  ids is proved equal to folding over the nested form;
* the `vehicle_counts` dict literal has exactly the four vehicle keys,
  so it is embedded as a structure with four `Nat` fields; a second,
  dict-faithful embedding with fallible key lookup (`tallyDict`) is
  used to show no `KeyError`-style lookup failure is reachable;
* the detector call either yields results or raises; this is an
  `Except String` value consumed by the orchestrator, and the single
  inference side effect is recorded as an event trace.
-/

namespace STM

/-- The module-level `VEHICLE_CLASSES` dict of `src/app.py`
(`{2: 'car', 3: 'motorcycle', 5: 'bus', 7: 'truck'}`), as the fallible
lookup that Python dict membership and indexing give. -/
def VEHICLE_CLASSES (class_id : Int) : Option String :=
  if class_id = 2 then some "car"
  else if class_id = 3 then some "motorcycle"
  else if class_id = 5 then some "bus"
  else if class_id = 7 then some "truck"
  else none

/-- The `vehicle_counts` dict literal
`{'car': 0, 'motorcycle': 0, 'bus': 0, 'truck': 0}`: it always has
exactly these four keys, so it is a structure with four `Nat` fields. -/
structure VehicleCounts where
  car : Nat
  motorcycle : Nat
  bus : Nat
  truck : Nat
deriving Repr, DecidableEq

/-- The initial counts dict: every key mapped to 0. -/
def initialCounts : VehicleCounts := ⟨0, 0, 0, 0⟩

/-- `vehicle_counts[vehicle_type] += 1` for a label produced by
`VEHICLE_CLASSES` (the guard `class_id in VEHICLE_CLASSES` ensures the
label is one of the four keys before this runs). -/
def incrementLabel (c : VehicleCounts) (lbl : String) : VehicleCounts :=
  if lbl = "car" then { c with car := c.car + 1 }
  else if lbl = "motorcycle" then { c with motorcycle := c.motorcycle + 1 }
  else if lbl = "bus" then { c with bus := c.bus + 1 }
  else if lbl = "truck" then { c with truck := c.truck + 1 }
  else c

/-- The body of the detection loop for one box:
`if class_id in VEHICLE_CLASSES: vehicle_counts[VEHICLE_CLASSES[class_id]] += 1`. -/
def tallyStep (c : VehicleCounts) (class_id : Int) : VehicleCounts :=
  match VEHICLE_CLASSES class_id with
  | some lbl => incrementLabel c lbl
  | none => c

/-- The tally over a flat sequence of detection class ids. -/
def tally (ids : List Int) : VehicleCounts :=
  ids.foldl tallyStep initialCounts

/-- The nested detection loop of `analyze_traffic`
(`for result in results: for box in result.boxes: ...`): each element
of `results` carries a list of box class ids. -/
def tallyResults (results : List (List Int)) : VehicleCounts :=
  results.foldl (fun c boxes => boxes.foldl tallyStep c) initialCounts

/-- `total_vehicles = sum(vehicle_counts.values())`. -/
def totalVehicles (c : VehicleCounts) : Nat :=
  c.car + c.motorcycle + c.bus + c.truck

/-- The tier-dependent part of the result: density string, display
color, green-light duration. -/
structure DensityInfo where
  density : String
  density_color : String
  green_duration : Nat
deriving Repr, DecidableEq

/-- The cascading threshold conditional of `analyze_traffic`
(lines 50-62 of `src/app.py`): `total_vehicles <= 5` is Low,
`total_vehicles <= 15` is Medium, otherwise High. -/
def classify_density (total_vehicles : Nat) : DensityInfo :=
  if total_vehicles ≤ 5 then ⟨"Low", "#4CAF50", 30⟩
  else if total_vehicles ≤ 15 then ⟨"Medium", "#FF9800", 45⟩
  else ⟨"High", "#F44336", 60⟩

/-- The dict returned by `analyze_traffic` on success. -/
structure AnalysisResult where
  total_vehicles : Nat
  vehicle_counts : VehicleCounts
  density : String
  density_color : String
  green_duration : Nat
deriving Repr, DecidableEq

/-- Assembly of the result record from the tallied counts
(lines 47-70 of `src/app.py`). -/
def buildResult (vehicle_counts : VehicleCounts) : AnalysisResult :=
  let total_vehicles := totalVehicles vehicle_counts
  let d := classify_density total_vehicles
  ⟨total_vehicles, vehicle_counts, d.density, d.density_color, d.green_duration⟩

/-- The pure pipeline on a flat sequence of class ids: tally, then sum,
then classify. -/
def assembleResult (ids : List Int) : AnalysisResult :=
  buildResult (tally ids)

/-- Observable side effects of the orchestrator: the one kind it has is
an inference call on the external model. -/
inductive DetectorEvent where
  | inference
deriving Repr, DecidableEq

/-- The orchestrator `analyze_traffic`: `results = model(image_path)` is
one inference call on the external detector, performed before any other
work; if it raises, the exception propagates out of the function (no
handler inside `analyze_traffic`), otherwise the tally, total and
density are computed and the result dict returned. The detector outcome
is the `Except` argument; the returned trace records the inference
calls performed. -/
def analyze_traffic (det : Except String (List (List Int))) :
    Except String AnalysisResult × List DetectorEvent :=
  match det with
  | Except.error e => (Except.error e, [DetectorEvent.inference])
  | Except.ok results => (Except.ok (buildResult (tallyResults results)), [DetectorEvent.inference])

/-- Severity order on the density tiers, for the monotonicity claim:
Low is 0, Medium is 1, High is 2. -/
def severity (d : String) : Nat :=
  if d = "Low" then 0 else if d = "Medium" then 1 else 2

/-!
A second, dict-faithful embedding of the tally. In Python,
`vehicle_counts` is a dict and `vehicle_counts[vehicle_type] += 1`
raises a `KeyError` when `vehicle_type` is not a key. To show that no
such lookup failure is reachable, the dict is an association list and
the increment is fallible: `none` is the `KeyError`.
-/

/-- Increment the value at key `k` in an association list; `none` when
the key is absent (Python `KeyError`). -/
def dictIncr (d : List (String × Nat)) (k : String) : Option (List (String × Nat)) :=
  match d with
  | [] => none
  | (k', v) :: rest =>
      if k' = k then some ((k', v + 1) :: rest)
      else (dictIncr rest k).map (fun r => (k', v) :: r)

/-- The `vehicle_counts` dict literal, as an association list. -/
def initialDict : List (String × Nat) :=
  [("car", 0), ("motorcycle", 0), ("bus", 0), ("truck", 0)]

/-- One loop iteration over the dict model: a prior `KeyError`
propagates; a class id found in `VEHICLE_CLASSES` increments its
label's entry; any other class id leaves the dict unchanged. -/
def tallyStepDict (d : Option (List (String × Nat))) (class_id : Int) :
    Option (List (String × Nat)) :=
  match d with
  | none => none
  | some d =>
      match VEHICLE_CLASSES class_id with
      | some lbl => dictIncr d lbl
      | none => some d

/-- The tally loop over the dict model. -/
def tallyDict (ids : List Int) : Option (List (String × Nat)) :=
  ids.foldl tallyStepDict (some initialDict)

/-! ### Helper lemmas -/

/-- One tally step, in closed form: each field grows by 1 exactly when
the class id matches its COCO id. -/
lemma tallyStep_eq (c : VehicleCounts) (i : Int) :
    tallyStep c i =
      ⟨c.car + (if i = 2 then 1 else 0),
       c.motorcycle + (if i = 3 then 1 else 0),
       c.bus + (if i = 5 then 1 else 0),
       c.truck + (if i = 7 then 1 else 0)⟩ := by
  simp only [tallyStep, VEHICLE_CLASSES]
  split_ifs with h2 h3 h5 h7 <;> simp_all [incrementLabel]

/-- Folding the tally step over a list adds, fieldwise, the occurrence
counts of the four vehicle class ids. -/
lemma foldl_tallyStep (ids : List Int) (c : VehicleCounts) :
    ids.foldl tallyStep c =
      ⟨c.car + ids.count 2, c.motorcycle + ids.count 3,
       c.bus + ids.count 5, c.truck + ids.count 7⟩ := by
  induction ids generalizing c with
  | nil => simp
  | cons i t ih =>
    rw [List.foldl_cons, tallyStep_eq, ih]
    simp only [List.count_cons]
    refine VehicleCounts.mk.injEq .. ▸ ?_
    refine ⟨?_, ?_, ?_, ?_⟩
    all_goals
      by_cases h : i = 2 <;> by_cases h3 : i = 3 <;> by_cases h5 : i = 5 <;>
        by_cases h7 : i = 7 <;> simp_all <;> try omega

/-- The tally equals the quadruple of occurrence counts of ids 2, 3, 5, 7. -/
lemma tally_eq_counts (ids : List Int) :
    tally ids = ⟨ids.count 2, ids.count 3, ids.count 5, ids.count 7⟩ := by
  simp [tally, foldl_tallyStep, initialCounts]

/-- Folding over the nested results is the tally of the flattened ids. -/
lemma tallyResults_eq (results : List (List Int)) :
    tallyResults results = tally results.flatten := by
  have key : ∀ (rs : List (List Int)) (c : VehicleCounts),
      rs.foldl (fun c boxes => boxes.foldl tallyStep c) c = rs.flatten.foldl tallyStep c := by
    intro rs
    induction rs with
    | nil => intro c; rfl
    | cons b t ih =>
      intro c
      rw [List.foldl_cons, ih, List.flatten_cons, List.foldl_append]
  simp [tallyResults, tally, key]

/-- `dictIncr` succeeds on every key present in the dict and preserves
the key set. -/
lemma dictIncr_keys (d : List (String × Nat)) (k : String)
    (hk : k ∈ d.map Prod.fst) :
    ∃ d', dictIncr d k = some d' ∧ d'.map Prod.fst = d.map Prod.fst := by
  induction d with
  | nil => simp at hk
  | cons p rest ih =>
    obtain ⟨k', v⟩ := p
    by_cases h : k' = k
    · exact ⟨(k', v + 1) :: rest, by simp [dictIncr, h], by simp⟩
    · simp only [List.map_cons, List.mem_cons] at hk
      rcases hk with hk | hk
      · exact absurd hk.symm h
      · obtain ⟨d', hd, hkeys⟩ := ih hk
        exact ⟨(k', v) :: d', by simp [dictIncr, h, hd], by simp [hkeys]⟩

/-- Every label the class table produces is a key of the counts dict. -/
lemma VEHICLE_CLASSES_label_mem (i : Int) (lbl : String)
    (h : VEHICLE_CLASSES i = some lbl) : lbl ∈ initialDict.map Prod.fst := by
  simp only [VEHICLE_CLASSES] at h
  split_ifs at h <;> simp_all [initialDict]

/-- One dict-model step never fails and preserves the key set, for any
integer class id. -/
lemma tallyStepDict_some (d : List (String × Nat)) (i : Int)
    (hd : d.map Prod.fst = initialDict.map Prod.fst) :
    ∃ d', tallyStepDict (some d) i = some d' ∧
      d'.map Prod.fst = initialDict.map Prod.fst := by
  unfold tallyStepDict
  cases h : VEHICLE_CLASSES i with
  | none => exact ⟨d, rfl, hd⟩
  | some lbl =>
    have hk : lbl ∈ d.map Prod.fst := by
      rw [hd]; exact VEHICLE_CLASSES_label_mem i lbl h
    obtain ⟨d', h1, h2⟩ := dictIncr_keys d lbl hk
    exact ⟨d', h1, h2.trans hd⟩

/-- The dict-model fold never fails, starting from any dict with the
four vehicle keys. -/
lemma tallyDict_fold_some (ids : List Int) :
    ∀ d, d.map Prod.fst = initialDict.map Prod.fst →
      ∃ d', ids.foldl tallyStepDict (some d) = some d' ∧
        d'.map Prod.fst = initialDict.map Prod.fst := by
  induction ids with
  | nil => exact fun d hd => ⟨d, rfl, hd⟩
  | cons i t ih =>
    intro d hd
    obtain ⟨d1, h1, h1k⟩ := tallyStepDict_some d i hd
    obtain ⟨d', h2, h2k⟩ := ih d1 h1k
    exact ⟨d', by rw [List.foldl_cons, h1]; exact h2, h2k⟩

/-- A class id outside {2, 3, 5, 7} is not in the class table. -/
lemma VEHICLE_CLASSES_eq_none (i : Int)
    (h : ¬(i = 2 ∨ i = 3 ∨ i = 5 ∨ i = 7)) : VEHICLE_CLASSES i = none := by
  push_neg at h
  obtain ⟨h2, h3, h5, h7⟩ := h
  simp [VEHICLE_CLASSES, h2, h3, h5, h7]

/-! ### Claim theorems -/

/-- C1: the density classification maps totals 0 through 5 to
Low/#4CAF50/30, totals 6 through 15 to Medium/#FF9800/45, and totals 16
or greater to High/#F44336/60. -/
theorem C1_density_bands (n : Nat) :
    (n ≤ 5 → classify_density n = ⟨"Low", "#4CAF50", 30⟩) ∧
    (6 ≤ n → n ≤ 15 → classify_density n = ⟨"Medium", "#FF9800", 45⟩) ∧
    (16 ≤ n → classify_density n = ⟨"High", "#F44336", 60⟩) := by
  unfold classify_density
  refine ⟨fun h => ?_, fun h6 h15 => ?_, fun h16 => ?_⟩ <;>
    split_ifs <;> first | rfl | omega

/-- C1 witness: the band theorem evaluated at the boundary totals
5, 6, 15 and 16. -/
theorem C1_density_bands_witness :
    classify_density 5 = ⟨"Low", "#4CAF50", 30⟩ ∧
    classify_density 6 = ⟨"Medium", "#FF9800", 45⟩ ∧
    classify_density 15 = ⟨"Medium", "#FF9800", 45⟩ ∧
    classify_density 16 = ⟨"High", "#F44336", 60⟩ :=
  ⟨(C1_density_bands 5).1 (by decide),
   (C1_density_bands 6).2.1 (by decide) (by decide),
   (C1_density_bands 15).2.1 (by decide) (by decide),
   (C1_density_bands 16).2.2 (by decide)⟩

/-- C2: the tally counts exactly the occurrences of class ids 2, 3, 5, 7
into car, motorcycle, bus, truck, and a sequence with no vehicle id
yields all-zero counts and total 0. -/
theorem C2_tally_vehicle_ids_only (ids : List Int) :
    tally ids = ⟨ids.count 2, ids.count 3, ids.count 5, ids.count 7⟩ ∧
    ((∀ i ∈ ids, ¬(i = 2 ∨ i = 3 ∨ i = 5 ∨ i = 7)) →
      tally ids = initialCounts ∧ totalVehicles (tally ids) = 0) := by
  refine ⟨tally_eq_counts ids, fun h => ?_⟩
  have h2 : ids.count 2 = 0 :=
    List.count_eq_zero.mpr fun hm => h 2 hm (Or.inl rfl)
  have h3 : ids.count 3 = 0 :=
    List.count_eq_zero.mpr fun hm => h 3 hm (Or.inr (Or.inl rfl))
  have h5 : ids.count 5 = 0 :=
    List.count_eq_zero.mpr fun hm => h 5 hm (Or.inr (Or.inr (Or.inl rfl)))
  have h7 : ids.count 7 = 0 :=
    List.count_eq_zero.mpr fun hm => h 7 hm (Or.inr (Or.inr (Or.inr rfl)))
  rw [tally_eq_counts, h2, h3, h5, h7]
  exact ⟨rfl, rfl⟩

/-- C2 witness: the no-vehicle-id case evaluated on [0, 9]
(person, traffic light). -/
theorem C2_tally_vehicle_ids_only_witness :
    tally [0, 9] = initialCounts ∧ totalVehicles (tally [0, 9]) = 0 :=
  (C2_tally_vehicle_ids_only [0, 9]).2 (by decide)

/-- C3: when the detector raises, analyze_traffic propagates the error
carrying the underlying cause, performs no further work beyond the one
inference, and never yields an AnalysisResult. -/
theorem C3_detector_error_propagates (e : String) :
    analyze_traffic (Except.error e) =
      (Except.error e, [DetectorEvent.inference]) ∧
    ∀ r : AnalysisResult,
      (analyze_traffic (Except.error e)).1 ≠ Except.ok r := by
  refine ⟨rfl, fun r h => ?_⟩
  simp [analyze_traffic] at h

/-- C4: the result's vehicle_counts has exactly the four Nat-valued
fields car, motorcycle, bus, truck, and total_vehicles is their sum. -/
theorem C4_total_is_sum (results : List (List Int)) :
    (buildResult (tallyResults results)).vehicle_counts = tallyResults results ∧
    (buildResult (tallyResults results)).total_vehicles =
      (buildResult (tallyResults results)).vehicle_counts.car +
      (buildResult (tallyResults results)).vehicle_counts.motorcycle +
      (buildResult (tallyResults results)).vehicle_counts.bus +
      (buildResult (tallyResults results)).vehicle_counts.truck := by
  exact ⟨rfl, rfl⟩

/-- C5: the density classification always yields one of the three tiers
Low, Medium, High, and the tier severity is monotone non-decreasing in
the total. -/
theorem C5_three_tiers_monotone :
    (∀ n : Nat, (classify_density n).density = "Low" ∨
      (classify_density n).density = "Medium" ∨
      (classify_density n).density = "High") ∧
    (∀ m n : Nat, m ≤ n →
      severity (classify_density m).density ≤
        severity (classify_density n).density) := by
  constructor
  · intro n
    unfold classify_density
    split_ifs <;> simp
  · intro m n h
    unfold classify_density
    split_ifs <;> simp [severity] <;> omega

/-- C5 witness: the monotonicity evaluated at the concrete pair 3 ≤ 20. -/
theorem C5_three_tiers_monotone_witness :
    ((classify_density 3).density = "Low" ∨
      (classify_density 3).density = "Medium" ∨
      (classify_density 3).density = "High") ∧
    severity (classify_density 3).density ≤
      severity (classify_density 20).density :=
  ⟨C5_three_tiers_monotone.1 3, C5_three_tiers_monotone.2 3 20 (by decide)⟩

/-- C6: the tally, and with it the assembled result, is invariant under
any permutation of the detection sequence. -/
theorem C6_tally_perm_invariant (l1 l2 : List Int) (h : l1.Perm l2) :
    tally l1 = tally l2 ∧ assembleResult l1 = assembleResult l2 := by
  have ht : tally l1 = tally l2 := by
    rw [tally_eq_counts, tally_eq_counts, h.count_eq, h.count_eq,
      h.count_eq, h.count_eq]
  exact ⟨ht, by simp [assembleResult, ht]⟩

/-- C6 witness: permutation invariance evaluated on [2, 3, 5] vs
its reversal [5, 3, 2]. -/
theorem C6_tally_perm_invariant_witness :
    tally [2, 3, 5] = tally [5, 3, 2] ∧
    assembleResult [2, 3, 5] = assembleResult [5, 3, 2] :=
  C6_tally_perm_invariant [2, 3, 5] [5, 3, 2] (by decide)

/-- C7: end-to-end, ids [2,2,3,7] give counts car 2 / motorcycle 1 /
bus 0 / truck 1, total 4, Low/30; eight cars give total 8, Medium/45;
twenty buses give total 20, High/60. -/
theorem C7_end_to_end_scenarios :
    analyze_traffic (Except.ok [[2, 2, 3, 7]]) =
      (Except.ok ⟨4, ⟨2, 1, 0, 1⟩, "Low", "#4CAF50", 30⟩,
        [DetectorEvent.inference]) ∧
    analyze_traffic (Except.ok [List.replicate 8 2]) =
      (Except.ok ⟨8, ⟨8, 0, 0, 0⟩, "Medium", "#FF9800", 45⟩,
        [DetectorEvent.inference]) ∧
    analyze_traffic (Except.ok [List.replicate 20 5]) =
      (Except.ok ⟨20, ⟨0, 0, 20, 0⟩, "High", "#F44336", 60⟩,
        [DetectorEvent.inference]) :=
  ⟨rfl, rfl, rfl⟩

/-- C8: every call of analyze_traffic performs exactly one inference
call, whether the detector succeeds or fails; there is no retry and no
second pass. -/
theorem C8_exactly_one_inference (det : Except String (List (List Int))) :
    (analyze_traffic det).2 = [DetectorEvent.inference] ∧
    ((analyze_traffic det).2).length = 1 := by
  cases det <;> exact ⟨rfl, rfl⟩

/-- C9: the tally is total over arbitrary integer class ids: the
membership guard skips every id outside {2, 3, 5, 7} (negative ids and
ids above 79 included), and in the dict-faithful model no key-lookup
failure is reachable for any integer input sequence. -/
theorem C9_total_over_all_ints (ids : List Int) :
    (tallyDict ids).isSome = true ∧
    (∀ i : Int, ¬(i = 2 ∨ i = 3 ∨ i = 5 ∨ i = 7) →
      (∀ c, tallyStep c i = c) ∧
      (∀ d, tallyStepDict (some d) i = some d)) := by
  constructor
  · obtain ⟨d', hd, -⟩ := tallyDict_fold_some ids initialDict rfl
    rw [tallyDict, hd]
    rfl
  · intro i hi
    have hnone := VEHICLE_CLASSES_eq_none i hi
    exact ⟨fun c => by simp [tallyStep, hnone],
      fun d => by simp [tallyStepDict, hnone]⟩

/-- C9 witness: totality on the sequence [-1, 100, 0, 9] and the skip
behaviour at class id -1. -/
theorem C9_total_over_all_ints_witness :
    (tallyDict [-1, 100, 0, 9]).isSome = true ∧
    tallyStep initialCounts (-1) = initialCounts :=
  ⟨(C9_total_over_all_ints [-1, 100, 0, 9]).1,
   ((C9_total_over_all_ints [-1, 100, 0, 9]).2 (-1) (by decide)).1
     initialCounts⟩

/-- C10: each detection raises the total by exactly 1 when its class id
is in {2, 3, 5, 7} and by 0 otherwise, so total_vehicles never exceeds
the length of the detection sequence. -/
theorem C10_total_le_length (ids : List Int) :
    (assembleResult ids).total_vehicles ≤ ids.length ∧
    (∀ c i, totalVehicles (tallyStep c i) =
      totalVehicles c + (if i = 2 ∨ i = 3 ∨ i = 5 ∨ i = 7 then 1 else 0)) := by
  constructor
  · have hcount : ids.count 2 + ids.count 3 + ids.count 5 + ids.count 7 ≤
        ids.length := by
      induction ids with
      | nil => simp
      | cons i t ih =>
        simp only [List.count_cons, List.length_cons]
        by_cases h2 : i = 2 <;> by_cases h3 : i = 3 <;>
          by_cases h5 : i = 5 <;> by_cases h7 : i = 7 <;>
          simp_all <;> omega
    simpa [assembleResult, buildResult, totalVehicles, tally_eq_counts]
      using hcount
  · intro c i
    rw [tallyStep_eq]
    simp only [totalVehicles]
    by_cases h2 : i = 2 <;> by_cases h3 : i = 3 <;>
      by_cases h5 : i = 5 <;> by_cases h7 : i = 7 <;>
      simp_all <;> omega

end STM
